import Mathlib

/-!
Shallow embedding of `src/ext/c11threads/c11threads-tiny.h`, a thin C11-threads
compatibility layer over POSIX threads.  Each wrapper takes the integer result
of the underlying pthread call as an explicit argument (the pthread facility is
an external dependency, not part of this repository) and computes the
caller-visible return value exactly as the C source does.  Pointer-sized values
are modelled as `Nat` bit patterns modulo `2 ^ 64` (LP64: `long` and `void*`
are 64 bits); a C `int` is an `Int` in the signed 32-bit range.
-/

/-- Status enumeration of the layer, from the source line
`enum ( thrd_success, thrd_busy, thrd_error, thrd_nomem )`:
the values are 0, 1, 2, 3 in source order. -/
inductive ThrdStatus where
  | thrd_success
  | thrd_busy
  | thrd_error
  | thrd_nomem
  deriving DecidableEq, Repr

open ThrdStatus

/-- Numeric enum values of the status codes, in source order. -/
def ThrdStatus.toCode : ThrdStatus → Nat
  | thrd_success => 0
  | thrd_busy => 1
  | thrd_error => 2
  | thrd_nomem => 3

/-- The closed status set of the layer as a list. -/
def statusSet : List ThrdStatus := [thrd_success, thrd_busy, thrd_error, thrd_nomem]

/-- Mutex mode constant `mtx_plain = 0` from the source enum. -/
def mtx_plain : Int := 0

/-- Mutex mode constant `mtx_recursive = 1` from the source enum. -/
def mtx_recursive : Int := 1

/-- Mutex mode constant `mtx_timed = 2` from the source enum. -/
def mtx_timed : Int := 2

/-- Mutex mode constant `mtx_try = 4` from the source enum. -/
def mtx_try : Int := 4

/-- The errno value `EDEADLK` (35 on Linux, from `errno.h`) that
`pthread_mutex_lock` reports on self-deadlock. -/
def EDEADLK : Int := 35

/-- The errno value `EBUSY` (16 on Linux, from `errno.h`) that
`pthread_mutex_trylock` reports when the mutex is already held. -/
def EBUSY : Int := 16

/-- Bit pattern of the `void*` produced by the C cast chain
`(void*)(long)res`: `int` to `long` is a value-preserving sign extension, and
`long` to `void*` keeps the 64-bit two's-complement pattern, i.e. the
nonnegative residue of the value modulo `2 ^ 64`. -/
def intToPtrBits (x : Int) : Nat := (x % (2 ^ 64 : Int)).toNat

/-- `thrd_exit(int res)` calls `pthread_exit((void*)(long)res)`: the value
made available to a joiner is the pointer bit pattern of `res`. -/
def thrd_exit_store (res : Int) : Nat := intToPtrBits res

/-- The C cast `(int)retval` applied to a 64-bit pointer bit pattern: keep the
low 32 bits and reinterpret them as a signed 32-bit value. -/
def castPtrToInt (p : Nat) : Int :=
  if p % 2 ^ 32 < 2 ^ 31 then ((p % 2 ^ 32 : Nat) : Int)
  else ((p % 2 ^ 32 : Nat) : Int) - 2 ^ 32

/-- `thrd_join(thrd_t thr, int* res)` from the source: if `pthread_join`
fails (nonzero `joinRes`) return `thrd_error` without touching `*res`; on
success write `(int)retval` through `res` only when `res` is non-null, and
return `thrd_success`.  `resNonNull` models whether the `res` pointer is
non-null and `mem` the caller's result location; the returned pair is the
status together with the final contents of that location. -/
def thrd_join (joinRes : Int) (retval : Nat) (resNonNull : Bool) (mem : Int) :
    ThrdStatus × Int :=
  if joinRes ≠ 0 then (thrd_error, mem)
  else if resNonNull then (thrd_success, castPtrToInt retval)
  else (thrd_success, mem)

/-- `thrd_create` from the source: `pthread_create(...) == 0 ? thrd_success :
thrd_error`, where `r` is the `pthread_create` result. -/
def thrd_create (r : Int) : ThrdStatus :=
  if r = 0 then thrd_success else thrd_error

/-- `thrd_detatch` from the source: `pthread_detach(thr) == 0 ? thrd_success :
thrd_error` (sic, the source spells it `detatch`). -/
def thrd_detatch (r : Int) : ThrdStatus :=
  if r = 0 then thrd_success else thrd_error

/-- `mtx_init(mtx_t* mtx, int type)` from the source: the body is
`pthread_mutex_init(mtx, NULL) == 0 ? thrd_success : thrd_error`; the `type`
argument is never read. -/
def mtx_init (r : Int) (ty : Int) : ThrdStatus :=
  if r = 0 then thrd_success else thrd_error

/-- The attribute argument `mtx_init` passes to `pthread_mutex_init`: always
`NULL` (modelled as `none`), whatever the `type` argument. -/
def mtx_init_attr_arg (ty : Int) : Option Int := none

/-- Locked flag of the mutex `mtx_init` constructs: `pthread_mutex_init` with
`NULL` attributes yields a default, unlocked mutex, whatever the `type`. -/
def mtx_init_locked (ty : Int) : Bool := false

/-- `mtx_lock` from the source: `EDEADLK` from `pthread_mutex_lock` maps to
`thrd_busy`, 0 to `thrd_success`, anything else to `thrd_error`. -/
def mtx_lock (r : Int) : ThrdStatus :=
  if r = EDEADLK then thrd_busy
  else if r = 0 then thrd_success
  else thrd_error

/-- `mtx_trylock` from the source: `EBUSY` from `pthread_mutex_trylock` maps
to `thrd_busy`, 0 to `thrd_success`, anything else to `thrd_error`. -/
def mtx_trylock (r : Int) : ThrdStatus :=
  if r = EBUSY then thrd_busy
  else if r = 0 then thrd_success
  else thrd_error

/-- `mtx_unlock` from the source: `pthread_mutex_unlock(mtx) == 0 ?
thrd_success : thrd_error`. -/
def mtx_unlock (r : Int) : ThrdStatus :=
  if r = 0 then thrd_success else thrd_error

/-- `mtx_destroy` from the source returns `void`: the `pthread_mutex_destroy`
result `r` is discarded and the caller sees only `()`. -/
def mtx_destroy (r : Int) : Unit := ()

/-- Status channel of `mtx_destroy`: the C function has return type `void`,
so no status value reaches the caller, whatever `r`. -/
def mtx_destroy_status (r : Int) : Option ThrdStatus := none

/-- `cnd_init` from the source: `pthread_cond_init(cond, 0) == 0 ?
thrd_success : thrd_error`. -/
def cnd_init (r : Int) : ThrdStatus :=
  if r = 0 then thrd_success else thrd_error

/-- `cnd_destroy` from the source returns `void`: the `pthread_cond_destroy`
result `r` is discarded and the caller sees only `()`. -/
def cnd_destroy (r : Int) : Unit := ()

/-- Status channel of `cnd_destroy`: the C function has return type `void`,
so no status value reaches the caller, whatever `r`. -/
def cnd_destroy_status (r : Int) : Option ThrdStatus := none

/-- `cnd_signal` from the source: `pthread_cond_signal(cond) == 0 ?
thrd_success : thrd_error`. -/
def cnd_signal (r : Int) : ThrdStatus :=
  if r = 0 then thrd_success else thrd_error

/-- `cnd_broadcast` from the source: `pthread_cond_broadcast(cond) == 0 ?
thrd_success : thrd_error`. -/
def cnd_broadcast (r : Int) : ThrdStatus :=
  if r = 0 then thrd_success else thrd_error

/-- `cnd_wait` from the source: `pthread_cond_wait(cond, mtx) == 0 ?
thrd_success : thrd_error`. -/
def cnd_wait (r : Int) : ThrdStatus :=
  if r = 0 then thrd_success else thrd_error

/-- `tss_create` from the source: `pthread_key_create(key, dtor) == 0 ?
thrd_success : thrd_error`. -/
def tss_create (r : Int) : ThrdStatus :=
  if r = 0 then thrd_success else thrd_error

/-- `tss_delete` from the source returns `void`: the `pthread_key_delete`
result `r` is discarded and the caller sees only `()`. -/
def tss_delete (r : Int) : Unit := ()

/-- Status channel of `tss_delete`: the C function has return type `void`,
so no status value reaches the caller, whatever `r`. -/
def tss_delete_status (r : Int) : Option ThrdStatus := none

/-- Status returned by `tss_set` from the source: `pthread_setspecific(key,
val) == 0 ? thrd_success : thrd_error`. -/
def tss_set_status (r : Int) : ThrdStatus :=
  if r = 0 then thrd_success else thrd_error

/-- `call_once` from the source has return type `void`: the `pthread_once`
result `r` is discarded and the caller sees only `()`. -/
def call_once_ret (r : Int) : Unit := ()

/-- Status channel of `call_once`: the C function has return type `void`,
so no status value reaches the caller, whatever `r`. -/
def call_once_status (r : Int) : Option ThrdStatus := none

/-- Per-thread thread-specific-data map: thread id and key id to stored
value; `none` models the C null pointer. -/
def TlsState := Nat → Nat → Option Int

/-- Modelled from the spec: the underlying `pthread_setspecific` primitive is
external to the repository (only its caller `tss_set` is in `src/`).  Per the
spec, `set(key, value)` is a per-calling-thread write of the slot's value:
only the calling thread's slot for this key changes. -/
def pthread_setspecific (s : TlsState) (t k : Nat) (v : Option Int) : TlsState :=
  fun t' k' => if t' = t ∧ k' = k then v else s t' k'

/-- Modelled from the spec: the underlying `pthread_getspecific` primitive is
external to the repository (only its caller `tss_get` is in `src/`).  Per the
spec, `get(key)` is a per-calling-thread read of the slot's value. -/
def pthread_getspecific (s : TlsState) (t k : Nat) : Option Int := s t k

/-- Modelled from the spec: each thread independently starts with a null
value for every key. -/
def tls_initial : TlsState := fun _ _ => none

/-- `tss_set` from the source: passes the value to `pthread_setspecific` for
the calling thread `t`; the write itself succeeds in this model, so the
status is `thrd_success`. -/
def tss_set (s : TlsState) (t k : Nat) (v : Option Int) : ThrdStatus × TlsState :=
  (thrd_success, pthread_setspecific s t k v)

/-- `tss_get` from the source: returns `pthread_getspecific(key)` for the
calling thread `t`. -/
def tss_get (s : TlsState) (t k : Nat) : Option Int := pthread_getspecific s t k

/-- State of a once-flag together with the number of times the guarded
function has run. -/
structure OnceState where
  ran : Bool
  execs : Nat
  deriving DecidableEq, Repr

/-- `ONCE_FLAG_INIT` (`PTHREAD_ONCE_INIT`): the flag starts not-run and the
guarded function has executed zero times. -/
def onceInit : OnceState := ⟨false, 0⟩

/-- Modelled from the spec: the underlying `pthread_once` primitive is
external to the repository (only its caller `call_once` is in `src/`).  Per
the spec, the first (linearized) completed call on a not-run flag executes
the function to completion and marks the flag run; every call on a run flag
returns without re-invoking the function.  One step is one completed call,
which the blocking in `call_once` serializes. -/
def pthread_once (s : OnceState) : OnceState :=
  if s.ran then s else ⟨true, s.execs + 1⟩

/-- `call_once` from the source forwards the flag and function to
`pthread_once` and returns nothing. -/
def call_once (s : OnceState) : OnceState := pthread_once s

/-- Flag state after `n` (serialized) completed calls of `call_once` on a
freshly initialized flag. -/
def call_once_iter (n : Nat) : OnceState := call_once^[n] onceInit

/- ---------------------------------------------------------------------- -/
/- Theorems -/
/- ---------------------------------------------------------------------- -/

theorem mem_statusSet (s : ThrdStatus) : s ∈ statusSet := by
  cases s <;> simp [statusSet]

theorem cast_roundtrip (res : Int) (h1 : -(2 ^ 31) ≤ res) (h2 : res < 2 ^ 31) :
    castPtrToInt (intToPtrBits res) = res := by
  unfold castPtrToInt intToPtrBits
  split <;> omega

theorem call_once_iter_succ (n : Nat) : call_once_iter (n + 1) = ⟨true, 1⟩ := by
  induction n with
  | zero => rfl
  | succ m ih =>
    have h : call_once_iter (m + 2) = call_once (call_once_iter (m + 1)) :=
      Function.iterate_succ_apply' call_once (m + 1) onceInit
    rw [h, ih]
    rfl

/-- Claim C1: a thread that terminates via `thrd_exit(res)` stores the
pointer bit pattern of `res`, and a succeeding `thrd_join(thr, &out)` writes
exactly `res` to `out` and returns `thrd_success`: the round trip of a C
`int` through `(void*)(long)res` and back through `(int)retval` preserves
every value in the signed 32-bit range. -/
theorem thrd_exit_join_roundtrip (res : Int) (m : Int)
    (h1 : -(2 ^ 31) ≤ res) (h2 : res < 2 ^ 31) :
    thrd_join 0 (thrd_exit_store res) true m = (thrd_success, res) := by
  have h := cast_roundtrip res h1 h2
  simp [thrd_join, thrd_exit_store, h]

/-- Witness for C1: the round trip at the concrete exit value -5. -/
theorem thrd_exit_join_roundtrip_witness :
    thrd_join 0 (thrd_exit_store (-5)) true 0 = (thrd_success, -5) :=
  thrd_exit_join_roundtrip (-5) 0 (by decide) (by decide)

/-- Claim C2: `mtx_lock` maps an underlying `EDEADLK` to `thrd_busy`, an
underlying 0 to `thrd_success`, and every other underlying result to
`thrd_error`. -/
theorem mtx_lock_spec :
    mtx_lock EDEADLK = thrd_busy ∧ mtx_lock 0 = thrd_success ∧
      ∀ r : Int, r ≠ EDEADLK → r ≠ 0 → mtx_lock r = thrd_error := by
  refine ⟨rfl, rfl, ?_⟩
  intro r hdead hzero
  simp [mtx_lock, hdead, hzero]

/-- Witness for C2: `mtx_lock` at the concrete underlying results 35
(`EDEADLK`), 0 and 22 (`EINVAL`). -/
theorem mtx_lock_spec_witness :
    mtx_lock EDEADLK = thrd_busy ∧ mtx_lock 0 = thrd_success ∧
      mtx_lock 22 = thrd_error :=
  ⟨mtx_lock_spec.1, mtx_lock_spec.2.1, mtx_lock_spec.2.2 22 (by decide) (by decide)⟩

/-- Claim C3: `mtx_trylock` maps an underlying `EBUSY` to `thrd_busy`, an
underlying 0 to `thrd_success`, and every other underlying result to
`thrd_error`. -/
theorem mtx_trylock_spec :
    mtx_trylock EBUSY = thrd_busy ∧ mtx_trylock 0 = thrd_success ∧
      ∀ r : Int, r ≠ EBUSY → r ≠ 0 → mtx_trylock r = thrd_error := by
  refine ⟨rfl, rfl, ?_⟩
  intro r hbusy hzero
  simp [mtx_trylock, hbusy, hzero]

/-- Witness for C3: `mtx_trylock` at the concrete underlying results 16
(`EBUSY`), 0 and 22 (`EINVAL`). -/
theorem mtx_trylock_spec_witness :
    mtx_trylock EBUSY = thrd_busy ∧ mtx_trylock 0 = thrd_success ∧
      mtx_trylock 22 = thrd_error :=
  ⟨mtx_trylock_spec.1, mtx_trylock_spec.2.1,
    mtx_trylock_spec.2.2 22 (by decide) (by decide)⟩

/-- Claim C4: `mtx_init` ignores its `type` argument: for every mode (the
declared modes and any other integer) the returned status, the attribute
argument passed to `pthread_mutex_init` (always `NULL`), and the constructed
mutex (unlocked, default) coincide with those of mode `mtx_plain`. -/
theorem mtx_init_ignores_type (r ty : Int) :
    mtx_init r ty = mtx_init r mtx_plain ∧
      mtx_init_attr_arg ty = mtx_init_attr_arg mtx_plain ∧
      mtx_init_locked ty = mtx_init_locked mtx_plain ∧
      mtx_init_locked ty = false :=
  ⟨rfl, rfl, rfl, rfl⟩

/-- Claim C5: `thrd_create` returns `thrd_success` when the underlying
`pthread_create` returns 0, returns a status in the generic-error /
out-of-memory family (concretely `thrd_error`) on every nonzero underlying
result, and never returns `thrd_busy`. -/
theorem thrd_create_spec :
    thrd_create 0 = thrd_success ∧
      (∀ r : Int, r ≠ 0 →
        thrd_create r = thrd_error ∨ thrd_create r = thrd_nomem) ∧
      ∀ r : Int, thrd_create r ≠ thrd_busy := by
  refine ⟨rfl, ?_, ?_⟩
  · intro r hr
    left
    simp [thrd_create, hr]
  · intro r
    unfold thrd_create
    split <;> simp

/-- Witness for C5: `thrd_create` at the concrete underlying results 0 and
11 (`EAGAIN`, the resource-exhaustion errno of `pthread_create`). -/
theorem thrd_create_spec_witness :
    thrd_create 0 = thrd_success ∧
      (thrd_create 11 = thrd_error ∨ thrd_create 11 = thrd_nomem) ∧
      thrd_create 11 ≠ thrd_busy :=
  ⟨thrd_create_spec.1, thrd_create_spec.2.1 11 (by decide),
    thrd_create_spec.2.2 11⟩

/-- Counterexample to claim C6 as stated: `call_once` and the destroy/delete
operations are `void` functions, so even on a successful underlying call
(result 0) they signal no status value at all to the caller — not "exactly
one status value from the closed set". -/
theorem void_ops_signal_no_status :
    call_once_status 0 = none ∧ mtx_destroy_status 0 = none ∧
      cnd_destroy_status 0 = none ∧ tss_delete_status 0 = none :=
  ⟨rfl, rfl, rfl, rfl⟩

/-- Claim C6 (amended): every status-returning primitive of the layer
returns exactly one value from the closed set (success, busy, error,
nomem) for every underlying result; `call_once` and the destroy/delete
operations return `void` and signal no status. -/
theorem status_closed_set (r : Int) :
    thrd_create r ∈ statusSet ∧ (thrd_join r 0 false 0).1 ∈ statusSet ∧
      thrd_detatch r ∈ statusSet ∧ mtx_init r 0 ∈ statusSet ∧
      mtx_lock r ∈ statusSet ∧ mtx_trylock r ∈ statusSet ∧
      mtx_unlock r ∈ statusSet ∧ cnd_init r ∈ statusSet ∧
      cnd_signal r ∈ statusSet ∧ cnd_broadcast r ∈ statusSet ∧
      cnd_wait r ∈ statusSet ∧ tss_create r ∈ statusSet ∧
      tss_set_status r ∈ statusSet ∧
      call_once_status r = none ∧ mtx_destroy_status r = none ∧
      cnd_destroy_status r = none ∧ tss_delete_status r = none :=
  ⟨mem_statusSet _, mem_statusSet _, mem_statusSet _, mem_statusSet _,
    mem_statusSet _, mem_statusSet _, mem_statusSet _, mem_statusSet _,
    mem_statusSet _, mem_statusSet _, mem_statusSet _, mem_statusSet _,
    mem_statusSet _, rfl, rfl, rfl, rfl⟩

/-- Claim C7: `tss_set(K, v)` on a thread followed by `tss_get(K)` on the
same thread returns `v`; on a different thread that never set the key,
`tss_get(K)` is unchanged by the set, and from the initial state it reads
null, regardless of the other thread's value. -/
theorem tss_set_get_spec (s : TlsState) (a b k : Nat) (v : Int) (hab : b ≠ a) :
    tss_get (tss_set s a k (some v)).2 a k = some v ∧
      tss_get (tss_set s a k (some v)).2 b k = tss_get s b k ∧
      tss_get tls_initial b k = none := by
  refine ⟨?_, ?_, rfl⟩
  · simp [tss_get, tss_set, pthread_getspecific, pthread_setspecific]
  · simp [tss_get, tss_set, pthread_getspecific, pthread_setspecific, hab]

/-- Witness for C7: thread 0 sets key 2 to 5; thread 0 reads 5 back, thread
1 still reads null. -/
theorem tss_set_get_spec_witness :
    tss_get (tss_set tls_initial 0 2 (some 5)).2 0 2 = some 5 ∧
      tss_get (tss_set tls_initial 0 2 (some 5)).2 1 2 =
        tss_get tls_initial 1 2 ∧
      tss_get tls_initial 1 2 = none :=
  tss_set_get_spec tls_initial 0 1 2 5 (by decide)

/-- Claim C8: among any positive number of (serialized) calls of
`call_once` on one freshly initialized flag, the guarded function executes
exactly once and the flag ends in the run state, so all later calls are
no-ops. -/
theorem call_once_exactly_once (n : Nat) (h : 1 ≤ n) :
    (call_once_iter n).execs = 1 ∧ (call_once_iter n).ran = true := by
  obtain ⟨m, rfl⟩ : ∃ m, n = m + 1 := ⟨n - 1, by omega⟩
  rw [call_once_iter_succ]
  exact ⟨rfl, rfl⟩

/-- Witness for C8: after three calls on one flag the function has executed
exactly once. -/
theorem call_once_exactly_once_witness :
    (call_once_iter 3).execs = 1 ∧ (call_once_iter 3).ran = true :=
  call_once_exactly_once 3 (by decide)

/-- Claim C9: when the underlying `pthread_join` fails, `thrd_join` returns
`thrd_error` and leaves the caller's result location unchanged; when it
succeeds with a null `res` pointer, the exit value is discarded and the
status is `thrd_success`; the location is written (with the cast exit value)
only when `res` is non-null and the underlying join succeeded. -/
theorem thrd_join_spec (j : Int) (rv : Nat) (m : Int) :
    (j ≠ 0 → thrd_join j rv true m = (thrd_error, m) ∧
      thrd_join j rv false m = (thrd_error, m)) ∧
      thrd_join 0 rv false m = (thrd_success, m) ∧
      thrd_join 0 rv true m = (thrd_success, castPtrToInt rv) := by
  refine ⟨?_, ?_, ?_⟩
  · intro hj
    constructor <;> simp [thrd_join, hj]
  · simp [thrd_join]
  · simp [thrd_join]

/-- Witness for C9: `thrd_join` at the concrete underlying results 3
(failure) and 0 (success), with result location holding 7. -/
theorem thrd_join_spec_witness :
    (thrd_join 3 5 true 7 = (thrd_error, 7) ∧
      thrd_join 3 5 false 7 = (thrd_error, 7)) ∧
      thrd_join 0 5 false 7 = (thrd_success, 7) ∧
      thrd_join 0 5 true 7 = (thrd_success, castPtrToInt 5) :=
  ⟨(thrd_join_spec 3 5 7).1 (by decide), (thrd_join_spec 3 5 7).2.1,
    (thrd_join_spec 3 5 7).2.2⟩

/-- Claim C10: `mtx_destroy`, `cnd_destroy` and `tss_delete` return no
status and discard the underlying primitive's result: for any two underlying
results the caller-visible outcome is identical, and the status channel is
empty. -/
theorem destroy_discard (r r' : Int) :
    mtx_destroy r = mtx_destroy r' ∧ cnd_destroy r = cnd_destroy r' ∧
      tss_delete r = tss_delete r' ∧ mtx_destroy_status r = none ∧
      cnd_destroy_status r = none ∧ tss_delete_status r = none :=
  ⟨rfl, rfl, rfl, rfl, rfl, rfl⟩
